import Mathlib

/-
Verification of the EasyPanel MCP Kiro client (src/configs/kiro-example.py).

The file is a thin synchronous HTTP client: every method builds a request
descriptor (URL, HTTP method, headers, optional JSON body), hands it to the
transport, and either returns the decoded JSON response unchanged or, when
the transport fails, a synthesized NETWORK_ERROR envelope.

The embedding below mirrors the Python class KiroEasyPanelClient.  The
`requests` library is abstracted as a `Transport` function from request
descriptors to results: a result is either a decoded JSON body (successful
HTTP status, decodable body) or a raised requests.exceptions.RequestException
carrying its string representation.  Python dicts appear as association
lists in insertion order, matching dict iteration order; Python truthiness
on values is `Json.truthy`.
-/

namespace EasyPanelMCP

/-- A JSON value: Python dicts become association lists in insertion order. -/
inductive Json where
  | null
  | bool (b : Bool)
  | int (n : Int)
  | str (s : String)
  | arr (elems : List Json)
  | obj (fields : List (String × Json))

/-- Python truthiness of a JSON value: None, False, 0, empty string, empty
list and empty dict are falsy, everything else truthy. -/
def Json.truthy : Json → Bool
  | .null => false
  | .bool b => b
  | .int n => n != 0
  | .str s => s != ""
  | .arr elems => !elems.isEmpty
  | .obj fields => !fields.isEmpty

/-- The Python idiom `d or \x7b\x7d` applied to an optional value: a missing or
falsy value is replaced by the empty mapping. -/
def pyOrEmpty : Option Json → Json
  | none => Json.obj []
  | some j => if j.truthy then j else Json.obj []

/-- First binding of a key in an association list (Python dict lookup). -/
def lookupField : List (String × Json) → String → Option Json
  | [], _ => none
  | (k, v) :: rest, key => if k = key then some v else lookupField rest key

/-- Extracts the error.message string from a response mapping, when present. -/
def errorMessageOf (j : Json) : Option Json :=
  match j with
  | .obj fields =>
    match lookupField fields "error" with
    | some (.obj efields) => lookupField efields "message"
    | _ => none
  | _ => none

/-- A request descriptor: full URL, HTTP method, headers in order, and the
JSON body handed to `requests.post` (none for a bodiless `requests.get`). -/
structure Request where
  url : String
  method : String
  headers : List (String × String)
  body : Option Json

/-- Outcome of one transport call: either the decoded JSON body of a
success-status response, or a requests.exceptions.RequestException whose
string representation is `message` (raised by the transport itself or by
`raise_for_status` on a non-success HTTP status). -/
inductive TransportResult where
  | ok (body : Json)
  | err (message : String)

/-- The abstracted `requests` library: maps each issued request to a result. -/
def Transport : Type := Request → TransportResult

/-- The error envelope synthesized in the `except` branch of `_make_request`:
success false, error code NETWORK_ERROR, message the exception's string. -/
def networkErrorEnvelope (message : String) : Json :=
  Json.obj [("success", Json.bool false),
            ("error", Json.obj [("code", Json.str "NETWORK_ERROR"),
                                ("message", Json.str message)])]

/-- The client: attributes set in `__init__` and never assigned afterwards. -/
structure Client where
  base_url : String
  session_id : String

/-- Default `base_url` of the constructor. -/
def default_base_url : String := "http://localhost:3002/api"

/-- The constructor `__init__`: stores the base URL and the fixed session
identifier "kiro_session". -/
def Client.init (base_url : String) : Client :=
  { base_url := base_url, session_id := "kiro_session" }

/-- The request `_make_request` issues: URL is base_url concatenated with the
endpoint, the three fixed headers, and for non-GET methods the JSON body
`data or \x7b\x7d` (GET sends no body). -/
def Client.buildRequest (c : Client) (endpoint : String) (method : String)
    (data : Option Json) : Request :=
  { url := c.base_url ++ endpoint
    method := method
    headers := [("Content-Type", "application/json"),
                ("X-MCP-Session-ID", c.session_id),
                ("X-Client-Name", "kiro")]
    body := if method = "GET" then none else some (pyOrEmpty data) }

/-- Result handling of `_make_request`: a decoded success body is returned
unchanged; a caught RequestException becomes the NETWORK_ERROR envelope. -/
def handleResult : TransportResult → Json
  | .ok body => body
  | .err message => networkErrorEnvelope message

/-- `_make_request`: builds the request, performs it through the transport,
and converts the outcome; total, so no exception escapes it. -/
def Client.make_request (c : Client) (t : Transport) (endpoint : String)
    (method : String) (data : Option Json) : Json :=
  handleResult (t (c.buildRequest endpoint method data))

/-- `health_check`: GET /health. -/
def Client.health_check (c : Client) (t : Transport) : Json :=
  c.make_request t "/health" "GET" none

/-- `list_tools`: GET /tools. -/
def Client.list_tools (c : Client) (t : Transport) : Json :=
  c.make_request t "/tools" "GET" none

/-- `execute_tool`: POST to /tools/ concatenated with the tool name, body
`args or \x7b\x7d`. -/
def Client.execute_tool (c : Client) (t : Transport) (tool_name : String)
    (args : Option Json) : Json :=
  c.make_request t ("/tools/" ++ tool_name) "POST" (some (pyOrEmpty args))

/-- `batch_execute`: POST /tools/batch, body a mapping with the single key
"tools" holding the given list. -/
def Client.batch_execute (c : Client) (t : Transport) (tools : List Json) : Json :=
  c.make_request t "/tools/batch" "POST"
    (some (Json.obj [("tools", Json.arr tools)]))

/-- Argument mapping of `list_projects`: limit always, search only if truthy. -/
def list_projects_args (limit : Int) (search : Option String) : List (String × Json) :=
  let args := [("limit", Json.int limit)]
  match search with
  | some s => if s = "" then args else args ++ [("search", Json.str s)]
  | none => args

/-- `list_projects`: tool projects_list. -/
def Client.list_projects (c : Client) (t : Transport) (limit : Int)
    (search : Option String) : Json :=
  c.execute_tool t "projects_list" (some (Json.obj (list_projects_args limit search)))

/-- Argument mapping of `create_project`: name always, domain only if truthy. -/
def create_project_args (name : String) (domain : Option String) : List (String × Json) :=
  let args := [("name", Json.str name)]
  match domain with
  | some d => if d = "" then args else args ++ [("domain", Json.str d)]
  | none => args

/-- `create_project`: tool projects_create. -/
def Client.create_project (c : Client) (t : Transport) (name : String)
    (domain : Option String) : Json :=
  c.execute_tool t "projects_create" (some (Json.obj (create_project_args name domain)))

/-- `list_services`: tool services_list, both arguments mandatory. -/
def Client.list_services (c : Client) (t : Transport) (project : String)
    (limit : Int) : Json :=
  c.execute_tool t "services_list"
    (some (Json.obj [("project", Json.str project), ("limit", Json.int limit)]))

/-- Argument mapping of `create_service`: project, name, image always; ports
and env_vars only if truthy (present and non-empty). -/
def create_service_args (project name image : String) (ports : Option (List String))
    (env_vars : Option (List (String × Json))) : List (String × Json) :=
  let args := [("project", Json.str project), ("name", Json.str name),
               ("image", Json.str image)]
  let args := match ports with
    | some ps => if ps.isEmpty then args
                 else args ++ [("ports", Json.arr (ps.map Json.str))]
    | none => args
  match env_vars with
  | some evs => if evs.isEmpty then args else args ++ [("env_vars", Json.obj evs)]
  | none => args

/-- `create_service`: tool services_create. -/
def Client.create_service (c : Client) (t : Transport) (project name image : String)
    (ports : Option (List String)) (env_vars : Option (List (String × Json))) : Json :=
  c.execute_tool t "services_create"
    (some (Json.obj (create_service_args project name image ports env_vars)))

/-- `deploy_service`: tool services_deploy, both arguments mandatory. -/
def Client.deploy_service (c : Client) (t : Transport) (project service : String) : Json :=
  c.execute_tool t "services_deploy"
    (some (Json.obj [("project", Json.str project), ("service", Json.str service)]))

/-- `list_databases`: tool databases_list. -/
def Client.list_databases (c : Client) (t : Transport) (limit : Int) : Json :=
  c.execute_tool t "databases_list" (some (Json.obj [("limit", Json.int limit)]))

/-- Argument mapping of `create_database`: name and type always, project only
if truthy. -/
def create_database_args (name type : String) (project : Option String) :
    List (String × Json) :=
  let args := [("name", Json.str name), ("type", Json.str type)]
  match project with
  | some p => if p = "" then args else args ++ [("project", Json.str p)]
  | none => args

/-- `create_database`: tool databases_create. -/
def Client.create_database (c : Client) (t : Transport) (name type : String)
    (project : Option String) : Json :=
  c.execute_tool t "databases_create"
    (some (Json.obj (create_database_args name type project)))

/-- `get_system_status`: tool system_status with no arguments. -/
def Client.get_system_status (c : Client) (t : Transport) : Json :=
  c.execute_tool t "system_status" none

/-- `cleanup_docker`: four-way dispatch over the cleanup_type string. -/
def Client.cleanup_docker (c : Client) (t : Transport) (cleanup_type : String) : Json :=
  if cleanup_type = "images" then c.execute_tool t "docker_cleanup_images" none
  else if cleanup_type = "containers" then c.execute_tool t "docker_cleanup_containers" none
  else if cleanup_type = "volumes" then c.execute_tool t "docker_volumes_cleanup" none
  else c.execute_tool t "docker_system_prune" none

/-- `get_client_info`: GET /client. -/
def Client.get_client_info (c : Client) (t : Transport) : Json :=
  c.make_request t "/client" "GET" none

/-- One call to a public client method, with its arguments. -/
inductive MethodCall where
  | health_check
  | list_tools
  | execute_tool (tool_name : String) (args : Option Json)
  | batch_execute (tools : List Json)
  | list_projects (limit : Int) (search : Option String)
  | create_project (name : String) (domain : Option String)
  | list_services (project : String) (limit : Int)
  | create_service (project name image : String) (ports : Option (List String))
      (env_vars : Option (List (String × Json)))
  | deploy_service (project service : String)
  | list_databases (limit : Int)
  | create_database (name type : String) (project : Option String)
  | get_system_status
  | cleanup_docker (cleanup_type : String)
  | get_client_info

/-- Runs the named client method with the given arguments. -/
def Client.runMethod (c : Client) (t : Transport) : MethodCall → Json
  | .health_check => c.health_check t
  | .list_tools => c.list_tools t
  | .execute_tool tool_name args => c.execute_tool t tool_name args
  | .batch_execute tools => c.batch_execute t tools
  | .list_projects limit search => c.list_projects t limit search
  | .create_project name domain => c.create_project t name domain
  | .list_services project limit => c.list_services t project limit
  | .create_service project name image ports env_vars =>
      c.create_service t project name image ports env_vars
  | .deploy_service project service => c.deploy_service t project service
  | .list_databases limit => c.list_databases t limit
  | .create_database name type project => c.create_database t name type project
  | .get_system_status => c.get_system_status t
  | .cleanup_docker cleanup_type => c.cleanup_docker t cleanup_type
  | .get_client_info => c.get_client_info t

/-- The request `execute_tool tool_name args` hands to the transport. -/
def Client.executeToolRequest (c : Client) (tool_name : String)
    (args : Option Json) : Request :=
  c.buildRequest ("/tools/" ++ tool_name) "POST" (some (pyOrEmpty args))

/-- The remote tool `cleanup_docker` selects for a given cleanup_type. -/
def cleanup_docker_tool (cleanup_type : String) : String :=
  if cleanup_type = "images" then "docker_cleanup_images"
  else if cleanup_type = "containers" then "docker_cleanup_containers"
  else if cleanup_type = "volumes" then "docker_volumes_cleanup"
  else "docker_system_prune"

/-- The single request each method call issues; `runMethod_eq` proves this is
exactly the request the method hands to the transport. -/
def Client.methodRequest (c : Client) : MethodCall → Request
  | .health_check => c.buildRequest "/health" "GET" none
  | .list_tools => c.buildRequest "/tools" "GET" none
  | .execute_tool tool_name args => c.executeToolRequest tool_name args
  | .batch_execute tools =>
      c.buildRequest "/tools/batch" "POST" (some (Json.obj [("tools", Json.arr tools)]))
  | .list_projects limit search =>
      c.executeToolRequest "projects_list" (some (Json.obj (list_projects_args limit search)))
  | .create_project name domain =>
      c.executeToolRequest "projects_create" (some (Json.obj (create_project_args name domain)))
  | .list_services project limit =>
      c.executeToolRequest "services_list"
        (some (Json.obj [("project", Json.str project), ("limit", Json.int limit)]))
  | .create_service project name image ports env_vars =>
      c.executeToolRequest "services_create"
        (some (Json.obj (create_service_args project name image ports env_vars)))
  | .deploy_service project service =>
      c.executeToolRequest "services_deploy"
        (some (Json.obj [("project", Json.str project), ("service", Json.str service)]))
  | .list_databases limit =>
      c.executeToolRequest "databases_list" (some (Json.obj [("limit", Json.int limit)]))
  | .create_database name type project =>
      c.executeToolRequest "databases_create"
        (some (Json.obj (create_database_args name type project)))
  | .get_system_status => c.executeToolRequest "system_status" none
  | .cleanup_docker cleanup_type =>
      c.executeToolRequest (cleanup_docker_tool cleanup_type) none
  | .get_client_info => c.buildRequest "/client" "GET" none

/-- State-passing form of a method call.  The Python methods read
`self.base_url` and `self.session_id` but no method body assigns to any
attribute of `self`, so each call returns the receiver unchanged next to
its result. -/
def Client.runMethodSt (c : Client) (t : Transport) (mc : MethodCall) :
    Client × Json :=
  (c, c.runMethod t mc)

/-- Every method call is one transport round-trip on its `methodRequest`,
with the outcome converted by `handleResult`. -/
theorem runMethod_eq (c : Client) (t : Transport) (mc : MethodCall) :
    c.runMethod t mc = handleResult (t (c.methodRequest mc)) := by
  cases mc with
  | cleanup_docker cleanup_type =>
    by_cases h1 : cleanup_type = "images"
    · simp [Client.runMethod, Client.cleanup_docker, Client.methodRequest,
        cleanup_docker_tool, h1, Client.execute_tool, Client.make_request,
        Client.executeToolRequest]
    · by_cases h2 : cleanup_type = "containers"
      · simp [Client.runMethod, Client.cleanup_docker, Client.methodRequest,
          cleanup_docker_tool, h1, h2, Client.execute_tool, Client.make_request,
          Client.executeToolRequest]
      · by_cases h3 : cleanup_type = "volumes"
        · simp [Client.runMethod, Client.cleanup_docker, Client.methodRequest,
            cleanup_docker_tool, h1, h2, h3, Client.execute_tool,
            Client.make_request, Client.executeToolRequest]
        · simp [Client.runMethod, Client.cleanup_docker, Client.methodRequest,
            cleanup_docker_tool, h1, h2, h3, Client.execute_tool,
            Client.make_request, Client.executeToolRequest]
  | _ => rfl

/-- Looks up a key in the JSON object body of a request, when there is one. -/
def requestBodyField (r : Request) (key : String) : Option Json :=
  match r.body with
  | some (Json.obj fields) => lookupField fields key
  | _ => none

/-- C1 (counterexample): the claim requires every failure envelope's message
to be non-empty, but `_make_request` returns the exception's string
representation verbatim; a transport failure whose string representation is
empty yields an envelope whose message is the empty string. -/
theorem C1_counterexample :
    (Client.init default_base_url).health_check (fun _ => TransportResult.err "") =
      networkErrorEnvelope "" ∧
    errorMessageOf (networkErrorEnvelope "") = some (Json.str "") ∧
    String.isEmpty "" = true :=
  ⟨rfl, rfl, rfl⟩

/-- C1 (amended): for every client method, when the underlying request fails
with a RequestException whose string representation is m, the method returns
exactly the mapping success false, error code NETWORK_ERROR, message m; the
handler is total, so no exception crosses the client boundary.  The message
equals the failure's description verbatim and so is non-empty exactly when
that description is. -/
theorem C1_network_error_envelope (c : Client) (mc : MethodCall) (t : Transport)
    (m : String) (h : t (c.methodRequest mc) = TransportResult.err m) :
    c.runMethod t mc = networkErrorEnvelope m := by
  rw [runMethod_eq, h]
  rfl

/-- Witness for C1: a connection failure on health_check becomes the
NETWORK_ERROR envelope carrying the exception text. -/
theorem C1_network_error_envelope_witness :
    (Client.init default_base_url).runMethod
      (fun _ => TransportResult.err "connection refused")
      MethodCall.health_check = networkErrorEnvelope "connection refused" :=
  C1_network_error_envelope (Client.init default_base_url) MethodCall.health_check
    (fun _ => TransportResult.err "connection refused") "connection refused" rfl

/-- C2: cleanup_docker invokes exactly one remote tool: "images" maps to
docker_cleanup_images, "containers" to docker_cleanup_containers, "volumes"
to docker_volumes_cleanup, and any other string to docker_system_prune. -/
theorem C2_cleanup_docker_dispatch :
    (∀ c : Client, ∀ t, c.cleanup_docker t "images" =
       c.execute_tool t "docker_cleanup_images" none) ∧
    (∀ c : Client, ∀ t, c.cleanup_docker t "containers" =
       c.execute_tool t "docker_cleanup_containers" none) ∧
    (∀ c : Client, ∀ t, c.cleanup_docker t "volumes" =
       c.execute_tool t "docker_volumes_cleanup" none) ∧
    (∀ c : Client, ∀ t, ∀ s : String, s ≠ "images" → s ≠ "containers" →
       s ≠ "volumes" →
       c.cleanup_docker t s = c.execute_tool t "docker_system_prune" none) := by
  refine ⟨fun _ _ => rfl, fun _ _ => rfl, fun _ _ => rfl, fun c t s h1 h2 h3 => ?_⟩
  simp [Client.cleanup_docker, h1, h2, h3]

/-- Witness for C2: the default cleanup type "all" is none of the three
special strings and maps to docker_system_prune. -/
theorem C2_cleanup_docker_dispatch_witness :
    (Client.init default_base_url).cleanup_docker (fun _ => TransportResult.ok Json.null)
      "all" =
    (Client.init default_base_url).execute_tool (fun _ => TransportResult.ok Json.null)
      "docker_system_prune" none :=
  C2_cleanup_docker_dispatch.2.2.2 (Client.init default_base_url)
    (fun _ => TransportResult.ok Json.null) "all"
    (by decide) (by decide) (by decide)

/-- C4: batch_execute issues a single POST to /tools/batch whose JSON body is
exactly the mapping with key "tools" holding the given list; in particular
for the one-element system_status descriptor. -/
theorem C4_batch_execute_request :
    (∀ c : Client, ∀ t tools, c.batch_execute t tools = handleResult (t
      { url := c.base_url ++ "/tools/batch"
        method := "POST"
        headers := [("Content-Type", "application/json"),
                    ("X-MCP-Session-ID", c.session_id),
                    ("X-Client-Name", "kiro")]
        body := some (Json.obj [("tools", Json.arr tools)]) })) ∧
    (∀ c : Client, ∀ t,
      c.batch_execute t [Json.obj [("name", Json.str "system_status")]] =
        handleResult (t
          { url := c.base_url ++ "/tools/batch"
            method := "POST"
            headers := [("Content-Type", "application/json"),
                        ("X-MCP-Session-ID", c.session_id),
                        ("X-Client-Name", "kiro")]
            body := some (Json.obj [("tools",
              Json.arr [Json.obj [("name", Json.str "system_status")]])]) })) :=
  ⟨fun _ _ _ => rfl, fun _ _ => rfl⟩

/-- C5: health_check issues a single GET to /health with no body; the
dispatcher sends no body for GET and the JSON body (the empty mapping when
none or a falsy mapping is supplied) for POST. -/
theorem C5_health_check_get_no_body :
    (∀ c : Client, ∀ t, c.health_check t = handleResult (t
      { url := c.base_url ++ "/health"
        method := "GET"
        headers := [("Content-Type", "application/json"),
                    ("X-MCP-Session-ID", c.session_id),
                    ("X-Client-Name", "kiro")]
        body := none })) ∧
    (∀ c : Client, ∀ endpoint data, (c.buildRequest endpoint "GET" data).body = none) ∧
    (∀ c : Client, ∀ endpoint data,
      (c.buildRequest endpoint "POST" data).body = some (pyOrEmpty data)) ∧
    (∀ c : Client, ∀ endpoint,
      (c.buildRequest endpoint "POST" none).body = some (Json.obj [])) :=
  ⟨fun _ _ => rfl, fun _ _ _ => rfl, fun _ _ _ => rfl, fun _ _ => rfl⟩

/-- C3: every higher-level tool method delegates to execute_tool with its
fixed tool name, and its request body equals the documented argument mapping
in which keys whose optional parameter is absent or falsy are omitted. -/
theorem C3_tool_method_bodies :
    (∀ c : Client, ∀ t limit search, c.list_projects t limit search =
       c.execute_tool t "projects_list" (some (Json.obj
         (("limit", Json.int limit) ::
           (match search with
            | some s => if s = "" then [] else [("search", Json.str s)]
            | none => []))))) ∧
    (∀ c : Client, ∀ t name domain, c.create_project t name domain =
       c.execute_tool t "projects_create" (some (Json.obj
         (("name", Json.str name) ::
           (match domain with
            | some d => if d = "" then [] else [("domain", Json.str d)]
            | none => []))))) ∧
    (∀ c : Client, ∀ t project limit, c.list_services t project limit =
       c.execute_tool t "services_list"
         (some (Json.obj [("project", Json.str project),
                          ("limit", Json.int limit)]))) ∧
    (∀ c : Client, ∀ t project name image ports env_vars,
       c.create_service t project name image ports env_vars =
       c.execute_tool t "services_create" (some (Json.obj
         ([("project", Json.str project), ("name", Json.str name),
           ("image", Json.str image)] ++
          (match ports with
           | some ps => if ps.isEmpty then []
                        else [("ports", Json.arr (ps.map Json.str))]
           | none => []) ++
          (match env_vars with
           | some evs => if evs.isEmpty then [] else [("env_vars", Json.obj evs)]
           | none => []))))) ∧
    (∀ c : Client, ∀ t project service, c.deploy_service t project service =
       c.execute_tool t "services_deploy"
         (some (Json.obj [("project", Json.str project),
                          ("service", Json.str service)]))) ∧
    (∀ c : Client, ∀ t limit, c.list_databases t limit =
       c.execute_tool t "databases_list"
         (some (Json.obj [("limit", Json.int limit)]))) ∧
    (∀ c : Client, ∀ t name type project, c.create_database t name type project =
       c.execute_tool t "databases_create" (some (Json.obj
         (("name", Json.str name) :: ("type", Json.str type) ::
           (match project with
            | some p => if p = "" then [] else [("project", Json.str p)]
            | none => []))))) := by
  refine ⟨?_, ?_, fun _ _ _ _ => rfl, ?_, fun _ _ _ _ => rfl,
    fun _ _ _ => rfl, ?_⟩
  · intro c t limit search
    cases search with
    | none => rfl
    | some s =>
      by_cases h : s = "" <;>
        simp [Client.list_projects, list_projects_args, h]
  · intro c t name domain
    cases domain with
    | none => rfl
    | some d =>
      by_cases h : d = "" <;>
        simp [Client.create_project, create_project_args, h]
  · intro c t project name image ports env_vars
    cases ports with
    | none =>
      cases env_vars with
      | none => rfl
      | some evs =>
        by_cases h : evs.isEmpty <;>
          simp [Client.create_service, create_service_args, h]
    | some ps =>
      cases env_vars with
      | none =>
        by_cases h : ps.isEmpty <;>
          simp [Client.create_service, create_service_args, h]
      | some evs =>
        by_cases h1 : ps.isEmpty <;> by_cases h2 : evs.isEmpty <;>
          simp [Client.create_service, create_service_args, h1, h2]
  · intro c t name type project
    cases project with
    | none => rfl
    | some p =>
      by_cases h : p = "" <;>
        simp [Client.create_database, create_database_args, h]

/-- C6: the request issued by any client method carries exactly the three
headers Content-Type application/json, X-MCP-Session-ID with the client's
session id, and X-Client-Name with the literal "kiro", in that order. -/
theorem C6_fixed_headers (c : Client) (mc : MethodCall) :
    (c.methodRequest mc).headers =
      [("Content-Type", "application/json"),
       ("X-MCP-Session-ID", c.session_id),
       ("X-Client-Name", "kiro")] ∧
    ∀ t, c.runMethod t mc = handleResult (t (c.methodRequest mc)) := by
  refine ⟨?_, fun t => runMethod_eq c t mc⟩
  cases mc <;> rfl

/-- C7: when the underlying request succeeds with decoded JSON body `body`,
every client method returns that body unchanged. -/
theorem C7_success_passthrough (c : Client) (mc : MethodCall) (t : Transport)
    (body : Json) (h : t (c.methodRequest mc) = TransportResult.ok body) :
    c.runMethod t mc = body := by
  rw [runMethod_eq, h]
  rfl

/-- Witness for C7: a transport answering null on health_check makes the
method return null itself. -/
theorem C7_success_passthrough_witness :
    (Client.init default_base_url).runMethod (fun _ => TransportResult.ok Json.null)
      MethodCall.health_check = Json.null :=
  C7_success_passthrough (Client.init default_base_url) MethodCall.health_check
    (fun _ => TransportResult.ok Json.null) Json.null rfl

/-- C8: the constructor stores the given base URL (default
http://localhost:3002/api) and the fixed session identifier, and no method
call changes the client's state. -/
theorem C8_immutable_client :
    (∀ base_url, (Client.init base_url).base_url = base_url ∧
       (Client.init base_url).session_id = "kiro_session") ∧
    (Client.init default_base_url).base_url = "http://localhost:3002/api" ∧
    (∀ c : Client, ∀ t mc, (c.runMethodSt t mc).1 = c) :=
  ⟨fun _ => ⟨rfl, rfl⟩, rfl, fun _ _ _ => rfl⟩

/-- C9: the request bodies built by list_projects, list_services and
list_databases always contain the key "limit" with the exact given integer,
even when it is 0 or negative, and these are the requests the methods
issue. -/
theorem C9_limit_always_sent (c : Client) (limit : Int) (search : Option String)
    (project : String) :
    requestBodyField (c.methodRequest (.list_projects limit search)) "limit" =
      some (Json.int limit) ∧
    requestBodyField (c.methodRequest (.list_services project limit)) "limit" =
      some (Json.int limit) ∧
    requestBodyField (c.methodRequest (.list_databases limit)) "limit" =
      some (Json.int limit) ∧
    ∀ t, c.list_projects t limit search =
           handleResult (t (c.methodRequest (.list_projects limit search))) ∧
         c.list_services t project limit =
           handleResult (t (c.methodRequest (.list_services project limit))) ∧
         c.list_databases t limit =
           handleResult (t (c.methodRequest (.list_databases limit))) := by
  refine ⟨?_, rfl, rfl, fun t =>
    ⟨runMethod_eq c t (.list_projects limit search),
     runMethod_eq c t (.list_services project limit),
     runMethod_eq c t (.list_databases limit)⟩⟩
  cases search with
  | none => rfl
  | some s =>
    by_cases h : s = "" <;>
      simp [Client.methodRequest, Client.executeToolRequest, Client.buildRequest,
        list_projects_args, pyOrEmpty, Json.truthy, requestBodyField, lookupField, h]

/-- C10: execute_tool issues its POST to the path obtained by concatenating
/tools/ and the tool name verbatim onto the base URL, with no escaping or
validation, including the empty name and names containing a slash. -/
theorem C10_execute_tool_path (c : Client) (tool_name : String)
    (args : Option Json) :
    (c.executeToolRequest tool_name args).url =
      c.base_url ++ ("/tools/" ++ tool_name) ∧
    (c.executeToolRequest tool_name args).method = "POST" ∧
    (∀ t, c.execute_tool t tool_name args =
       handleResult (t (c.executeToolRequest tool_name args))) ∧
    (c.executeToolRequest "" args).url = c.base_url ++ "/tools/" ∧
    (c.executeToolRequest "a/b" args).url = c.base_url ++ "/tools/a/b" :=
  ⟨rfl, rfl, fun _ => rfl, rfl, rfl⟩

end EasyPanelMCP
